import Mathlib

/-!
Verification of the Clone Request Panel (replicaAI frontend).

The repository consists of two near-duplicate React page components
(`src/frontend/src/app/page.tsx` with theme toggle, raw-HTML toggle and
download button, and `src/src/app/page.tsx`, a light-only variant).
Each owns transient UI state (`targetUrl`, `loading`, `clonedHtml`,
`error`, plus `showRawHtml` and `isDarkMode` in the first variant) and a
single async submit handler that POSTs the URL to a fixed endpoint and
stores the response HTML or an error message.

We embed the handler shallowly: the browser/network environment is an
explicit `FetchOutcome` value describing how the `fetch` call resolved,
and `handleSubmit` becomes a pure function from panel state and outcome
to the final panel state, together with a trace of the individual state
updates and DOM/network effects in the order the code performs them.
-/

/-- Panel state of the themed variant (`src/frontend/src/app/page.tsx`):
the six `useState` hooks, in source order. -/
structure PanelState where
  targetUrl : String
  loading : Bool
  clonedHtml : Option String
  error : Option String
  showRawHtml : Bool
  isDarkMode : Bool
deriving DecidableEq, Repr

/-- Initial state at mount: `useState('')`, `useState(false)`,
`useState(null)`, `useState(null)`, `useState(false)`, `useState(false)`. -/
def initPanelState : PanelState :=
  { targetUrl := "", loading := false, clonedHtml := none, error := none,
    showRawHtml := false, isDarkMode := false }

/-- A value thrown inside the `try` block and observed by the
`catch (err)` clause: either a JS `Error` instance carrying a message,
or some non-`Error` value. -/
inductive Thrown where
  | errorObj (msg : String)
  | nonError
deriving DecidableEq, Repr

/-- `err instanceof Error ? err.message : 'An error occurred'`. -/
def catchMessage : Thrown → String
  | .errorObj msg => msg
  | .nonError => "An error occurred"

/-- How `response.json()` resolves: the body is either not valid JSON
(the promise rejects with a `SyntaxError` carrying a parse message), or
a JSON object whose `cloned_html` field is a string or absent. -/
inductive ResponseBody where
  | malformed (parseMsg : String)
  | jsonObj (cloned_html : Option String)
deriving DecidableEq, Repr

/-- How the `fetch` call resolves: either the promise rejects (network
failure — per the fetch spec a `TypeError`, but we keep the thrown value
general because the `catch` clause inspects `instanceof Error`), or a
response arrives with a status code and a body. -/
inductive FetchOutcome where
  | thrown (t : Thrown)
  | response (status : Nat) (body : ResponseBody)
deriving DecidableEq, Repr

/-- `response.ok`: status in the inclusive range 200–299. -/
def responseOk (status : Nat) : Bool :=
  200 ≤ status && status < 300

/-- The message of the `Error` thrown on a non-ok response:
`` `HTTP error! status: ${response.status}` ``. -/
def httpErrorMessage (status : Nat) : String :=
  "HTTP error! status: " ++ toString status

/-- The outbound HTTP request issued by `fetch`. -/
structure CloneRequest where
  method : String
  endpoint : String
  headers : List (String × String)
  body : String
deriving DecidableEq, Repr

/-- JSON.stringify escaping of one character (QuoteJSONString): the two
quoting characters, the five short escapes, `\u00xx` for remaining
control characters, and everything else literally. -/
def quoteChar (c : Char) : List Char :=
  if c = '"' then ['\\', '"']
  else if c = '\\' then ['\\', '\\']
  else if c = '\x08' then ['\\', 'b']
  else if c = '\x0c' then ['\\', 'f']
  else if c = '\n' then ['\\', 'n']
  else if c = '\r' then ['\\', 'r']
  else if c = '\t' then ['\\', 't']
  else if c.toNat < 32 then
    ['\\', 'u', '0', '0', "0123456789abcdef".toList.getD (c.toNat / 16) '0',
     "0123456789abcdef".toList.getD (c.toNat % 16) '0']
  else [c]

/-- JSON.stringify escaping of a character sequence. -/
def quoteChars : List Char → List Char
  | [] => []
  | c :: cs => quoteChar c ++ quoteChars cs

/-- The fixed leading characters of the serialized body: opening brace,
the quoted key `target_url`, a colon, and the value's opening quote. -/
def bodyKey : List Char :=
  ['\x7b', '"', 't', 'a', 'r', 'g', 'e', 't', '_', 'u', 'r', 'l', '"', ':',
   '"']

/-- `JSON.stringify({ target_url: targetUrl })` as a character list: the
fixed prefix, then the escaped URL string, its closing quote, and the
closing brace. -/
def requestBodyChars (url : String) : List Char :=
  bodyKey ++ (quoteChars url.data ++ ('"' :: ['\x7d']))

/-- The serialized request body string. -/
def requestBody (url : String) : String :=
  String.mk (requestBodyChars url)

/-- The `fetch('http://localhost:8000/clone', ...)` call of the themed
variant: POST, JSON content type, body `JSON.stringify({ target_url })`. -/
def buildRequest (url : String) : CloneRequest :=
  { method := "POST"
    endpoint := "http://localhost:8000/clone"
    headers := [("Content-Type", "application/json")]
    body := requestBody url }

/-- The settled part of `handleSubmit` (themed variant): given the state
after the three leading `set` calls, apply the `try/catch` outcome.
Mirrors the source: a rejected fetch lands in `catch`; a non-ok response
throws `Error` with the synthesized status message, also landing in
`catch`; a body that fails to parse rejects `response.json()` with a
`SyntaxError` (an `Error`), landing in `catch`; otherwise
`setClonedHtml(data.cloned_html)` stores the field, which may be absent. -/
def settle (s : PanelState) (o : FetchOutcome) : PanelState :=
  match o with
  | .thrown t => { s with error := some (catchMessage t) }
  | .response status body =>
    if responseOk status then
      match body with
      | .malformed msg => { s with error := some msg }
      | .jsonObj h => { s with clonedHtml := h }
    else
      { s with error := some (httpErrorMessage status) }

/-- The full `handleSubmit` of the themed variant as a state
transformer: `setLoading(true)`, `setError(null)`, `setClonedHtml(null)`,
the fetch settles per the outcome, and `finally` runs
`setLoading(false)`. -/
def handleSubmitFinal (s : PanelState) (o : FetchOutcome) : PanelState :=
  let s1 := { s with loading := true, error := none, clonedHtml := none }
  let s2 := settle s1 o
  { s2 with loading := false }

/-- One observable effect of the submit handler, in source order. -/
inductive Event where
  | setLoading (b : Bool)
  | setError (e : Option String)
  | setClonedHtml (h : Option String)
  | httpRequest (r : CloneRequest)
deriving DecidableEq, Repr

/-- Whether an event is the issuing of an HTTP request. -/
def Event.isHttpRequest : Event → Bool
  | .httpRequest _ => true
  | _ => false

/-- The state updates performed after the fetch settles, per outcome. -/
def settleEvents (o : FetchOutcome) : List Event :=
  match o with
  | .thrown t => [.setError (some (catchMessage t))]
  | .response status body =>
    if responseOk status then
      match body with
      | .malformed msg => [.setError (some msg)]
      | .jsonObj h => [.setClonedHtml h]
    else
      [.setError (some (httpErrorMessage status))]

/-- The effect trace of one `handleSubmit` invocation, in the order the
source performs them: `setLoading(true)`; `setError(null)`;
`setClonedHtml(null)`; the single `fetch`; the settling update; and the
`finally` block's `setLoading(false)`. -/
def handleSubmitTrace (url : String) (o : FetchOutcome) : List Event :=
  [.setLoading true, .setError none, .setClonedHtml none,
   .httpRequest (buildRequest url)]
  ++ settleEvents o ++ [.setLoading false]

/-- Effect of one event on the panel state (`httpRequest` touches no
state). -/
def applyEvent (s : PanelState) (e : Event) : PanelState :=
  match e with
  | .setLoading b => { s with loading := b }
  | .setError e => { s with error := e }
  | .setClonedHtml h => { s with clonedHtml := h }
  | .httpRequest _ => s

/-- Run a trace of events from a state. -/
def applyTrace (s : PanelState) (es : List Event) : PanelState :=
  es.foldl applyEvent s

/-- `disabled={loading}` on the URL input control. -/
def inputDisabled (s : PanelState) : Bool := s.loading

/-- `disabled={loading}` on the submit button. -/
def submitDisabled (s : PanelState) : Bool := s.loading

/-- `onClick={() => setIsDarkMode(!isDarkMode)}`. -/
def toggleDarkMode (s : PanelState) : PanelState :=
  { s with isDarkMode := !s.isDarkMode }

/-- `onClick={() => setShowRawHtml(!showRawHtml)}`. -/
def toggleShowRawHtml (s : PanelState) : PanelState :=
  { s with showRawHtml := !s.showRawHtml }

/-! ### Abstract submit/success/failure event machine

The panel-level state machine described by the spec: a `submit` fires
the handler's leading updates and puts a request in flight; a `succeed`
or `fail` event is the settling of that request (so it can only occur
while a request is outstanding, i.e. while `loading` is true), applying
the handler's trailing updates including the `finally` reset of
`loading`.  A `submit` while `loading` is impossible in the source
because the submit control is `disabled={loading}`; the machine makes
it a no-op. -/

/-- An externally observable lifecycle event of the panel. -/
inductive PanelEvent where
  | submit
  | succeed (h : Option String)
  | fail (msg : String)
deriving DecidableEq, Repr

/-- One lifecycle step, derived from `handleSubmit`: `submit` performs
`setLoading(true); setError(null); setClonedHtml(null)` and issues the
request; `succeed h` performs `setClonedHtml(h)` then the `finally`
`setLoading(false)`; `fail m` performs `setError(m)` then the `finally`
`setLoading(false)`. Settle events without an outstanding request, and
submits while the control is disabled, leave the state unchanged. -/
def stepEvent (s : PanelState) (e : PanelEvent) : PanelState :=
  match e with
  | .submit =>
    if s.loading then s
    else { s with loading := true, error := none, clonedHtml := none }
  | .succeed h =>
    if s.loading then { s with loading := false, clonedHtml := h } else s
  | .fail m =>
    if s.loading then { s with loading := false, error := some m } else s

/-- Run a sequence of lifecycle events from a state. -/
def runEvents (s : PanelState) (es : List PanelEvent) : PanelState :=
  es.foldl stepEvent s

/-- The settling of a fetch outcome, as a lifecycle event. -/
def settleAsEvent (o : FetchOutcome) : PanelEvent :=
  match o with
  | .thrown t => .fail (catchMessage t)
  | .response status body =>
    if responseOk status then
      match body with
      | .malformed msg => .fail msg
      | .jsonObj h => .succeed h
    else
      .fail (httpErrorMessage status)

/-- Grounding of the event machine in the handler: from a non-loading
state, a submit step followed by the settling step of outcome `o` is
exactly `handleSubmitFinal`. -/
theorem runEvents_eq_handleSubmitFinal (s : PanelState) (o : FetchOutcome)
    (hl : s.loading = false) :
    runEvents s [.submit, settleAsEvent o] = handleSubmitFinal s o := by
  cases o with
  | thrown t =>
    simp [runEvents, stepEvent, settleAsEvent, handleSubmitFinal, settle, hl]
  | response status body =>
    cases body with
    | malformed msg =>
      by_cases hok : responseOk status = true <;>
        simp [runEvents, stepEvent, settleAsEvent, handleSubmitFinal, settle,
          hl, hok]
    | jsonObj h =>
      by_cases hok : responseOk status = true <;>
        simp [runEvents, stepEvent, settleAsEvent, handleSubmitFinal, settle,
          hl, hok]

/-! ### Light-only variant (`src/src/app/page.tsx`)

Separately transcribed from the second source file: same four state
hooks (no `showRawHtml`, no `isDarkMode`), same `handleSubmit` body. -/

/-- Panel state of the light-only variant: its four `useState` hooks in
source order. -/
structure PanelState2 where
  targetUrl : String
  loading : Bool
  clonedHtml : Option String
  error : Option String
deriving DecidableEq, Repr

/-- The `fetch('http://localhost:8000/clone', ...)` call of the
light-only variant. -/
def buildRequest2 (url : String) : CloneRequest :=
  { method := "POST"
    endpoint := "http://localhost:8000/clone"
    headers := [("Content-Type", "application/json")]
    body := requestBody url }

/-- The settled part of the light-only variant's `handleSubmit`. -/
def settle2 (s : PanelState2) (o : FetchOutcome) : PanelState2 :=
  match o with
  | .thrown t => { s with error := some (catchMessage t) }
  | .response status body =>
    if responseOk status then
      match body with
      | .malformed msg => { s with error := some msg }
      | .jsonObj h => { s with clonedHtml := h }
    else
      { s with error := some (httpErrorMessage status) }

/-- The light-only variant's `handleSubmit` as a state transformer. -/
def handleSubmitFinal2 (s : PanelState2) (o : FetchOutcome) : PanelState2 :=
  let s1 := { s with loading := true, error := none, clonedHtml := none }
  let s2 := settle2 s1 o
  { s2 with loading := false }

/-! ### Download button (themed variant only) -/

/-- UTF-8 encoding of one Unicode scalar value, as byte values. -/
def utf8EncodeChar (c : Char) : List Nat :=
  let n := c.toNat
  if n < 128 then [n]
  else if n < 2048 then [192 + n / 64, 128 + n % 64]
  else if n < 65536 then
    [224 + n / 4096, 128 + (n / 64) % 64, 128 + n % 64]
  else
    [240 + n / 262144, 128 + (n / 4096) % 64, 128 + (n / 64) % 64,
     128 + n % 64]

/-- UTF-8 byte content of a string: the `Blob` constructor encodes the
JS string part as UTF-8. -/
def utf8Bytes (s : String) : List Nat :=
  s.data.foldr (fun c acc => utf8EncodeChar c ++ acc) []

/-- The downloaded file object produced by
`new Blob([clonedHtml], \x7b type: "text/html" \x7d)` together with the
anchor's `download` attribute. -/
structure DownloadArtifact where
  filename : String
  mimeType : String
  contentBytes : List Nat
deriving DecidableEq, Repr

/-- One DOM/resource action of the download click handler. -/
inductive DomAction where
  | createObjectUrl
  | appendChild
  | click
  | removeChild
  | revokeObjectUrl
deriving DecidableEq, Repr

/-- The download button's `onClick` handler: builds the Blob from the
current `clonedHtml` string, names the file `cloned_site.html`, and
performs, in order: `URL.createObjectURL`, `appendChild`, `a.click()`,
`removeChild`, `URL.revokeObjectURL`. -/
def downloadHtml (html : String) : DownloadArtifact × List DomAction :=
  ({ filename := "cloned_site.html"
     mimeType := "text/html"
     contentBytes := utf8Bytes html },
   [.createObjectUrl, .appendChild, .click, .removeChild, .revokeObjectUrl])

/-! ### A JSON string decoder, to show the request body really carries
the submitted URL

`requestBody` is our model of `JSON.stringify(\x7b target_url \x7d)`.
To show the body is a JSON object whose single `target_url` field holds
the submitted URL (and not merely some string), we write an independent
decoder for the serialized shape and prove it recovers the URL exactly. -/

/-- Value of one hexadecimal digit character. -/
def hexVal (c : Char) : Option Nat :=
  if '0' ≤ c ∧ c ≤ '9' then some (c.toNat - 48)
  else if 'a' ≤ c ∧ c ≤ 'f' then some (c.toNat - 87)
  else if 'A' ≤ c ∧ c ≤ 'F' then some (c.toNat - 55)
  else none

/-- Decoding of a two-character JSON escape. -/
def unescape (e : Char) : Option Char :=
  if e = '"' then some '"'
  else if e = '\\' then some '\\'
  else if e = '/' then some '/'
  else if e = 'b' then some '\x08'
  else if e = 'f' then some '\x0c'
  else if e = 'n' then some '\n'
  else if e = 'r' then some '\r'
  else if e = 't' then some '\t'
  else none

/-- Parse the interior of a JSON string up to its closing quote,
returning the decoded characters and the remainder after the quote.
`\u` escapes below the surrogate range decode to the corresponding
scalar value; a backslash followed by anything other than `u` or a
short-escape character, or a dangling backslash, is rejected. -/
def parseQuoted : List Char → Option (List Char × List Char)
  | [] => none
  | '"' :: rest => some ([], rest)
  | '\\' :: 'u' :: d1 :: d2 :: d3 :: d4 :: rest =>
    match hexVal d1, hexVal d2, hexVal d3, hexVal d4 with
    | some a, some b, some v, some d =>
      let n := 4096 * a + 256 * b + 16 * v + d
      if n < 55296 then
        match parseQuoted rest with
        | some (cs, tail) => some (Char.ofNat n :: cs, tail)
        | none => none
      else none
    | _, _, _, _ => none
  | '\\' :: e :: rest =>
    match unescape e with
    | some u =>
      match parseQuoted rest with
      | some (cs, tail) => some (u :: cs, tail)
      | none => none
    | none => none
  | c :: rest =>
    match parseQuoted rest with
    | some (cs, tail) => some (c :: cs, tail)
    | none => none

/-- Decode a request body of the shape produced by
`JSON.stringify(\x7b target_url \x7d)`: an object with the single key
`target_url` whose value is a JSON string, followed by the closing
brace; return that string. -/
def bodyDecode (b : String) : Option String :=
  if b.data.take 15 = bodyKey then
    match parseQuoted (b.data.drop 15) with
    | some (cs, tl) => if tl = ['\x7d'] then some (String.mk cs) else none
    | none => none
  else none

/-- Hex digits emitted for control characters decode to their value. -/
theorem hexVal_digit_lt_32 :
    ∀ n < 32,
      hexVal ("0123456789abcdef".toList.getD (n / 16) '0') = some (n / 16) ∧
      hexVal ("0123456789abcdef".toList.getD (n % 16) '0') = some (n % 16) := by
  decide

/-- Parsing a two-character escape decodes via `unescape`. -/
theorem parseQuoted_escape (e u : Char) (hu : unescape e = some u)
    (rest : List Char) :
    parseQuoted ('\\' :: e :: rest) =
      (match parseQuoted rest with
       | some (cs, tail) => some (u :: cs, tail)
       | none => none) := by
  have he : e ≠ 'u' := by
    intro h
    subst h
    rw [show unescape 'u' = none from rfl] at hu
    exact Option.noConfusion hu
  simp [parseQuoted, he, hu]

/-- `parseQuoted` inverts `quoteChars`: parsing an escaped character
sequence followed by a closing quote recovers the sequence and the
remainder. -/
theorem parseQuoted_quoteChars (cs : List Char) (tail : List Char) :
    parseQuoted (quoteChars cs ++ ('"' :: tail)) = some (cs, tail) := by
  induction cs with
  | nil =>
    show parseQuoted ([] ++ '"' :: tail) = some ([], tail)
    rw [List.nil_append]
    exact rfl
  | cons c cs ih =>
    show parseQuoted ((quoteChar c ++ quoteChars cs) ++ ('"' :: tail)) = _
    rw [List.append_assoc]
    by_cases h1 : c = '"'
    · subst h1
      rw [show quoteChar '"' = ['\\', '"'] from rfl, List.cons_append,
        List.cons_append, List.nil_append,
        parseQuoted_escape '"' '"' rfl, ih]
    by_cases h2 : c = '\\'
    · subst h2
      rw [show quoteChar '\\' = ['\\', '\\'] from rfl, List.cons_append,
        List.cons_append, List.nil_append,
        parseQuoted_escape '\\' '\\' rfl, ih]
    by_cases h3 : c = '\x08'
    · subst h3
      rw [show quoteChar '\x08' = ['\\', 'b'] from rfl, List.cons_append,
        List.cons_append, List.nil_append,
        parseQuoted_escape 'b' '\x08' rfl, ih]
    by_cases h4 : c = '\x0c'
    · subst h4
      rw [show quoteChar '\x0c' = ['\\', 'f'] from rfl, List.cons_append,
        List.cons_append, List.nil_append,
        parseQuoted_escape 'f' '\x0c' rfl, ih]
    by_cases h5 : c = '\n'
    · subst h5
      rw [show quoteChar '\n' = ['\\', 'n'] from rfl, List.cons_append,
        List.cons_append, List.nil_append,
        parseQuoted_escape 'n' '\n' rfl, ih]
    by_cases h6 : c = '\r'
    · subst h6
      rw [show quoteChar '\r' = ['\\', 'r'] from rfl, List.cons_append,
        List.cons_append, List.nil_append,
        parseQuoted_escape 'r' '\r' rfl, ih]
    by_cases h7 : c = '\t'
    · subst h7
      rw [show quoteChar '\t' = ['\\', 't'] from rfl, List.cons_append,
        List.cons_append, List.nil_append,
        parseQuoted_escape 't' '\t' rfl, ih]
    by_cases h8 : c.toNat < 32
    · have hd := hexVal_digit_lt_32 c.toNat h8
      have hrec : 4096 * 0 + 256 * 0 + 16 * (c.toNat / 16) + c.toNat % 16 =
          c.toNat := by omega
      have hvalid : c.toNat < 55296 := by omega
      have hofNat : Char.ofNat c.toNat = c := Char.ofNat_toNat c
      rw [show quoteChar c =
            '\\' :: 'u' :: '0' :: '0' ::
              "0123456789abcdef".toList.getD (c.toNat / 16) '0' ::
              ["0123456789abcdef".toList.getD (c.toNat % 16) '0'] by
          simp [quoteChar, h1, h2, h3, h4, h5, h6, h7, h8]]
      rw [List.cons_append, List.cons_append, List.cons_append,
        List.cons_append, List.cons_append, List.cons_append,
        List.nil_append]
      rw [show parseQuoted ('\\' :: 'u' :: '0' :: '0' ::
            "0123456789abcdef".toList.getD (c.toNat / 16) '0' ::
            "0123456789abcdef".toList.getD (c.toNat % 16) '0' ::
            (quoteChars cs ++ '"' :: tail)) =
          (match hexVal '0', hexVal '0',
              hexVal ("0123456789abcdef".toList.getD (c.toNat / 16) '0'),
              hexVal ("0123456789abcdef".toList.getD (c.toNat % 16) '0') with
           | some a, some b, some v, some d =>
             let n := 4096 * a + 256 * b + 16 * v + d
             if n < 55296 then
               match parseQuoted (quoteChars cs ++ '"' :: tail) with
               | some (cs2, tail2) => some (Char.ofNat n :: cs2, tail2)
               | none => none
             else none
           | _, _, _, _ => none) from rfl]
      rw [hd.1, hd.2, show hexVal '0' = some 0 from rfl]
      simp only [ih, hrec]
      rw [if_pos hvalid, hofNat]
    · have hq : quoteChar c = [c] := by
        simp [quoteChar, h1, h2, h3, h4, h5, h6, h7, h8]
      rw [hq, List.cons_append, List.nil_append]
      simp [parseQuoted, h1, h2, ih]

/-- The serialized request body decodes back to the submitted URL. -/
theorem bodyDecode_requestBody (url : String) :
    bodyDecode (requestBody url) = some url := by
  have htake : (requestBody url).data.take 15 = bodyKey := by
    show (bodyKey ++ (quoteChars url.data ++ ('"' :: ['\x7d']))).take 15 =
      bodyKey
    rw [show (15 : Nat) = bodyKey.length from rfl, List.take_left]
  have hdrop : (requestBody url).data.drop 15 =
      quoteChars url.data ++ ('"' :: ['\x7d']) := by
    show (bodyKey ++ (quoteChars url.data ++ ('"' :: ['\x7d']))).drop 15 = _
    rw [show (15 : Nat) = bodyKey.length from rfl, List.drop_left]
  unfold bodyDecode
  rw [htake, hdrop, if_pos rfl, parseQuoted_quoteChars]
  exact rfl

/-! ### Helper lemmas -/

/-- The Result value the handler ends with, as a function of the fetch
outcome alone. -/
def resultOf (o : FetchOutcome) : Option String :=
  match o with
  | .response st (.jsonObj h) => if responseOk st then h else none
  | _ => none

/-- The Error value the handler ends with, as a function of the fetch
outcome alone. -/
def errorOf (o : FetchOutcome) : Option String :=
  match o with
  | .thrown t => some (catchMessage t)
  | .response st body =>
    if responseOk st then
      match body with
      | .malformed m => some m
      | .jsonObj _ => none
    else some (httpErrorMessage st)

theorem handleSubmitFinal_clonedHtml (s : PanelState) (o : FetchOutcome) :
    (handleSubmitFinal s o).clonedHtml = resultOf o := by
  cases o with
  | thrown t => rfl
  | response st body =>
    cases body with
    | malformed m =>
      by_cases hok : responseOk st = true <;>
        simp [handleSubmitFinal, settle, resultOf, hok]
    | jsonObj h =>
      by_cases hok : responseOk st = true <;>
        simp [handleSubmitFinal, settle, resultOf, hok]

theorem handleSubmitFinal_error (s : PanelState) (o : FetchOutcome) :
    (handleSubmitFinal s o).error = errorOf o := by
  cases o with
  | thrown t => rfl
  | response st body =>
    cases body with
    | malformed m =>
      by_cases hok : responseOk st = true <;>
        simp [handleSubmitFinal, settle, errorOf, hok]
    | jsonObj h =>
      by_cases hok : responseOk st = true <;>
        simp [handleSubmitFinal, settle, errorOf, hok]

theorem handleSubmitFinal_loading (s : PanelState) (o : FetchOutcome) :
    (handleSubmitFinal s o).loading = false := rfl

theorem handleSubmitFinal2_clonedHtml (s : PanelState2) (o : FetchOutcome) :
    (handleSubmitFinal2 s o).clonedHtml = resultOf o := by
  cases o with
  | thrown t => rfl
  | response st body =>
    cases body with
    | malformed m =>
      by_cases hok : responseOk st = true <;>
        simp [handleSubmitFinal2, settle2, resultOf, hok]
    | jsonObj h =>
      by_cases hok : responseOk st = true <;>
        simp [handleSubmitFinal2, settle2, resultOf, hok]

theorem handleSubmitFinal2_error (s : PanelState2) (o : FetchOutcome) :
    (handleSubmitFinal2 s o).error = errorOf o := by
  cases o with
  | thrown t => rfl
  | response st body =>
    cases body with
    | malformed m =>
      by_cases hok : responseOk st = true <;>
        simp [handleSubmitFinal2, settle2, errorOf, hok]
    | jsonObj h =>
      by_cases hok : responseOk st = true <;>
        simp [handleSubmitFinal2, settle2, errorOf, hok]

theorem handleSubmitFinal2_loading (s : PanelState2) (o : FetchOutcome) :
    (handleSubmitFinal2 s o).loading = false := rfl

/-- Inductive invariant of the lifecycle machine: while a request is in
flight both Result and Error are empty, and they are never both
non-empty. -/
def GoodState (s : PanelState) : Prop :=
  (s.loading = true → s.clonedHtml = none ∧ s.error = none) ∧
  (s.clonedHtml = none ∨ s.error = none)

theorem goodState_step (s : PanelState) (e : PanelEvent) (h : GoodState s) :
    GoodState (stepEvent s e) := by
  obtain ⟨h1, h2⟩ := h
  cases e with
  | submit =>
    simp only [stepEvent]
    split
    · exact ⟨h1, h2⟩
    · exact ⟨fun _ => ⟨rfl, rfl⟩, Or.inl rfl⟩
  | succeed hh =>
    simp only [stepEvent]
    split
    · next hl =>
      exact ⟨fun hc => Bool.noConfusion hc, Or.inr (h1 hl).2⟩
    · exact ⟨h1, h2⟩
  | fail m =>
    simp only [stepEvent]
    split
    · next hl =>
      exact ⟨fun hc => Bool.noConfusion hc, Or.inl (h1 hl).1⟩
    · exact ⟨h1, h2⟩

theorem goodState_run (s : PanelState) (es : List PanelEvent)
    (h : GoodState s) : GoodState (runEvents s es) := by
  induction es generalizing s with
  | nil => exact h
  | cons e es ih => exact ih (stepEvent s e) (goodState_step s e h)

/-! ### Claim theorems -/

/-- C1: every invocation of `handleSubmit` performs its side effects in
source order — status set to in-flight, prior Error cleared, prior
Result cleared, exactly one HTTP request issued to the clone endpoint
with the submitted URL as payload; on success the response's
`cloned_html` field is stored into Result, on any failure a descriptive
message is stored into Error, and regardless of outcome the final event
sets status back to idle; any Result or Error present before the
submission is cleared before the request settles. -/
theorem submit_side_effect_order (s : PanelState) (o : FetchOutcome) :
    (handleSubmitTrace s.targetUrl o).take 4 =
      [.setLoading true, .setError none, .setClonedHtml none,
       .httpRequest (buildRequest s.targetUrl)] ∧
    (handleSubmitTrace s.targetUrl o).filter Event.isHttpRequest =
      [.httpRequest (buildRequest s.targetUrl)] ∧
    (applyTrace s ((handleSubmitTrace s.targetUrl o).take 3)).error = none ∧
    (applyTrace s ((handleSubmitTrace s.targetUrl o).take 3)).clonedHtml =
      none ∧
    (handleSubmitTrace s.targetUrl o).getLast? = some (.setLoading false) ∧
    applyTrace s (handleSubmitTrace s.targetUrl o) = handleSubmitFinal s o ∧
    (handleSubmitFinal s o).loading = false ∧
    (handleSubmitFinal s o).clonedHtml = resultOf o ∧
    (handleSubmitFinal s o).error = errorOf o := by
  refine ⟨rfl, ?_, rfl, rfl, ?_, ?_, rfl,
    handleSubmitFinal_clonedHtml s o, handleSubmitFinal_error s o⟩
  · cases o with
    | thrown t =>
      simp [handleSubmitTrace, settleEvents, List.filter, Event.isHttpRequest]
    | response st body =>
      cases body with
      | malformed m =>
        by_cases hok : responseOk st = true <;>
          simp [handleSubmitTrace, settleEvents, List.filter,
            Event.isHttpRequest, hok]
      | jsonObj h =>
        by_cases hok : responseOk st = true <;>
          simp [handleSubmitTrace, settleEvents, List.filter,
            Event.isHttpRequest, hok]
  · show ((([.setLoading true, .setError none, .setClonedHtml none,
        .httpRequest (buildRequest s.targetUrl)] : List Event) ++
        (settleEvents o ++ [Event.setLoading false]))).getLast? =
      some (Event.setLoading false)
    rw [← List.append_assoc]
    exact List.getLast?_concat _
  · cases o with
    | thrown t => rfl
    | response st body =>
      cases body with
      | malformed m =>
        by_cases hok : responseOk st = true <;>
          simp [handleSubmitTrace, settleEvents, applyTrace, applyEvent,
            handleSubmitFinal, settle, hok]
      | jsonObj h =>
        by_cases hok : responseOk st = true <;>
          simp [handleSubmitTrace, settleEvents, applyTrace, applyEvent,
            handleSubmitFinal, settle, hok]

/-- C2: for every sequence of submit/success/failure events applied from
the initial state, Result and Error are never simultaneously non-empty. -/
theorem result_error_mutual_exclusion (es : List PanelEvent) :
    (runEvents initPanelState es).clonedHtml = none ∨
    (runEvents initPanelState es).error = none :=
  (goodState_run initPanelState es
    ⟨fun _ => ⟨rfl, rfl⟩, Or.inl rfl⟩).2

/-- C3: a submission whose response has a non-2xx status ends with Error
equal to the string synthesized from the status code, an empty Result,
and the input and submit controls re-enabled; at status 500 the message
is literally "HTTP error! status: 500". -/
theorem non2xx_settles_error (s : PanelState) (status : Nat)
    (body : ResponseBody) (h : responseOk status = false) :
    (handleSubmitFinal s (.response status body)).error =
      some (httpErrorMessage status) ∧
    (handleSubmitFinal s (.response status body)).clonedHtml = none ∧
    (handleSubmitFinal s (.response status body)).loading = false ∧
    inputDisabled (handleSubmitFinal s (.response status body)) = false ∧
    submitDisabled (handleSubmitFinal s (.response status body)) = false ∧
    httpErrorMessage 500 = "HTTP error! status: 500" := by
  have hmsg : httpErrorMessage 500 = "HTTP error! status: 500" := rfl
  cases body with
  | malformed m =>
    refine ⟨?_, ?_, rfl, rfl, rfl, hmsg⟩ <;>
      simp [handleSubmitFinal, settle, h]
  | jsonObj hh =>
    refine ⟨?_, ?_, rfl, rfl, rfl, hmsg⟩ <;>
      simp [handleSubmitFinal, settle, h]

/-- Witness for C3: concrete run at status 500. -/
theorem non2xx_settles_error_witness :
    responseOk 500 = false ∧
    (handleSubmitFinal initPanelState (.response 500 (.jsonObj none))).error =
      some (httpErrorMessage 500) :=
  ⟨by decide,
   (non2xx_settles_error initPanelState 500 (.jsonObj none) (by decide)).1⟩

/-- C4: while status is in-flight both the URL input and the submit
control are disabled and a submit step is a no-op (so no second request
can start), and each run of the submit handler issues exactly one HTTP
request. -/
theorem single_flight_guard (s : PanelState) (url : String)
    (o : FetchOutcome) :
    (s.loading = true →
      inputDisabled s = true ∧ submitDisabled s = true ∧
      stepEvent s .submit = s) ∧
    (handleSubmitTrace url o).countP Event.isHttpRequest = 1 := by
  constructor
  · intro hl
    exact ⟨hl, hl, by simp [stepEvent, hl]⟩
  · cases o with
    | thrown t =>
      simp [handleSubmitTrace, settleEvents, Event.isHttpRequest,
        List.countP_cons, List.countP_append]
    | response st body =>
      cases body with
      | malformed m =>
        by_cases hok : responseOk st = true <;>
          simp [handleSubmitTrace, settleEvents, Event.isHttpRequest,
            List.countP_cons, List.countP_append, hok]
      | jsonObj h =>
        by_cases hok : responseOk st = true <;>
          simp [handleSubmitTrace, settleEvents, Event.isHttpRequest,
            List.countP_cons, List.countP_append, hok]

/-- Witness for C4: concrete in-flight state and concrete trace. -/
theorem single_flight_guard_witness :
    ({ initPanelState with loading := true } : PanelState).loading = true ∧
    inputDisabled { initPanelState with loading := true } = true ∧
    (handleSubmitTrace "https://example.com"
      (.thrown .nonError)).countP Event.isHttpRequest = 1 :=
  ⟨rfl,
   ((single_flight_guard { initPanelState with loading := true }
      "https://example.com" (.thrown .nonError)).1 rfl).1,
   (single_flight_guard { initPanelState with loading := true }
      "https://example.com" (.thrown .nonError)).2⟩

/-- C5 counterexample: a 2xx response whose body is valid JSON but lacks
the `cloned_html` field is NOT treated as a failure — no message is
stored into Error (and Result also stays empty), refuting the claim
that such a submission surfaces a parse-failure message. -/
theorem missing_field_counterexample :
    (handleSubmitFinal initPanelState
      (.response 200 (.jsonObj none))).error = none ∧
    (handleSubmitFinal initPanelState
      (.response 200 (.jsonObj none))).clonedHtml = none := by
  exact ⟨rfl, rfl⟩

/-- C5 (amended): a 2xx response whose body is not valid JSON is treated
as a failure and the parse error's message is stored into Error; a 2xx
response whose body is valid JSON but lacks the `cloned_html` field
yields no error at all — Result and Error both end empty. -/
theorem response_shape_failure_behavior (s : PanelState) (status : Nat)
    (m : String) (hok : responseOk status = true) :
    (handleSubmitFinal s (.response status (.malformed m))).error = some m ∧
    (handleSubmitFinal s (.response status (.malformed m))).clonedHtml =
      none ∧
    (handleSubmitFinal s (.response status (.jsonObj none))).error = none ∧
    (handleSubmitFinal s (.response status (.jsonObj none))).clonedHtml =
      none := by
  refine ⟨?_, ?_, ?_, ?_⟩ <;> simp [handleSubmitFinal, settle, hok]

/-- Witness for amended C5: concrete run at status 200. -/
theorem response_shape_failure_behavior_witness :
    responseOk 200 = true ∧
    (handleSubmitFinal initPanelState
      (.response 200 (.malformed "Unexpected end of JSON input"))).error =
      some "Unexpected end of JSON input" :=
  ⟨by decide,
   (response_shape_failure_behavior initPanelState 200
      "Unexpected end of JSON input" (by decide)).1⟩

/-- C6: for every non-empty Result string, the download handler produces
a file named `cloned_site.html` with MIME type `text/html` whose byte
content is exactly the UTF-8 encoding of the Result string, and the
object URL is revoked at the end of the same synchronous handler,
immediately after the save is initiated by the anchor click. -/
theorem download_artifact_roundtrip (html : String) (h : html ≠ "") :
    (downloadHtml html).1.filename = "cloned_site.html" ∧
    (downloadHtml html).1.mimeType = "text/html" ∧
    (downloadHtml html).1.contentBytes = utf8Bytes html ∧
    (downloadHtml html).2 =
      [.createObjectUrl, .appendChild, .click, .removeChild,
       .revokeObjectUrl] ∧
    (downloadHtml html).2.getLast? = some .revokeObjectUrl :=
  ⟨rfl, rfl, rfl, rfl, rfl⟩

/-- Witness for C6: concrete download of a small HTML document. -/
theorem download_artifact_roundtrip_witness :
    ("<html><body>Hi</body></html>" : String) ≠ "" ∧
    (downloadHtml "<html><body>Hi</body></html>").1.filename =
      "cloned_site.html" :=
  ⟨by decide,
   (download_artifact_roundtrip "<html><body>Hi</body></html>"
      (by decide)).1⟩

/-- C7: the Theme flag is purely cosmetic — two submit runs differing
only in `isDarkMode` issue the identical request and end with identical
Result, Error and loading values; toggling Theme changes no
request-relevant state, and the handler's outcome is unaffected by a
mid-flight Theme toggle. -/
theorem theme_cosmetic_noninterference (s : PanelState) (d1 d2 : Bool)
    (o : FetchOutcome) :
    buildRequest ({ s with isDarkMode := d1 } : PanelState).targetUrl =
      buildRequest ({ s with isDarkMode := d2 } : PanelState).targetUrl ∧
    (handleSubmitFinal { s with isDarkMode := d1 } o).clonedHtml =
      (handleSubmitFinal { s with isDarkMode := d2 } o).clonedHtml ∧
    (handleSubmitFinal { s with isDarkMode := d1 } o).error =
      (handleSubmitFinal { s with isDarkMode := d2 } o).error ∧
    (handleSubmitFinal { s with isDarkMode := d1 } o).loading =
      (handleSubmitFinal { s with isDarkMode := d2 } o).loading ∧
    (toggleDarkMode s).loading = s.loading ∧
    (toggleDarkMode s).clonedHtml = s.clonedHtml ∧
    (toggleDarkMode s).error = s.error ∧
    (toggleDarkMode s).targetUrl = s.targetUrl ∧
    (handleSubmitFinal (toggleDarkMode s) o).clonedHtml =
      (handleSubmitFinal s o).clonedHtml ∧
    (handleSubmitFinal (toggleDarkMode s) o).error =
      (handleSubmitFinal s o).error ∧
    (handleSubmitFinal (toggleDarkMode s) o).loading =
      (handleSubmitFinal s o).loading := by
  refine ⟨rfl, ?_, ?_, rfl, rfl, rfl, rfl, rfl, ?_, ?_, rfl⟩
  · rw [handleSubmitFinal_clonedHtml, handleSubmitFinal_clonedHtml]
  · rw [handleSubmitFinal_error, handleSubmitFinal_error]
  · rw [handleSubmitFinal_clonedHtml, handleSubmitFinal_clonedHtml]
  · rw [handleSubmitFinal_error, handleSubmitFinal_error]

/-- C8: every submission issues an HTTP POST to the fixed endpoint
`http://localhost:8000/clone` with the `Content-Type: application/json`
header and a JSON body that is an object whose single `target_url`
field holds the submitted URL string (witnessed by decoding the
serialized body back to the URL). -/
theorem request_wire_contract (url : String) :
    buildRequest url =
      { method := "POST"
        endpoint := "http://localhost:8000/clone"
        headers := [("Content-Type", "application/json")]
        body := requestBody url } ∧
    bodyDecode (requestBody url) = some url :=
  ⟨rfl, bodyDecode_requestBody url⟩

/-- C9: the Display-Mode toggle and the Theme toggle are boolean
involutions — applying either twice returns the panel state (and hence
every state-derived style and view) to its original value. -/
theorem toggles_involution (s : PanelState) :
    toggleShowRawHtml (toggleShowRawHtml s) = s ∧
    toggleDarkMode (toggleDarkMode s) = s := by
  constructor <;> simp [toggleShowRawHtml, toggleDarkMode]

/-- C10: the two source variants implement extensionally equal
submit/request state machines — for every URL, prior state and backend
outcome, both issue the identical request and end with identical
Result, Error and loading values. -/
theorem variants_extensionally_equal (url : String) (o : FetchOutcome)
    (loading0 : Bool) (cloned0 err0 : Option String) (raw dark : Bool) :
    buildRequest url = buildRequest2 url ∧
    (handleSubmitFinal ⟨url, loading0, cloned0, err0, raw, dark⟩
        o).clonedHtml =
      (handleSubmitFinal2 ⟨url, loading0, cloned0, err0⟩ o).clonedHtml ∧
    (handleSubmitFinal ⟨url, loading0, cloned0, err0, raw, dark⟩ o).error =
      (handleSubmitFinal2 ⟨url, loading0, cloned0, err0⟩ o).error ∧
    (handleSubmitFinal ⟨url, loading0, cloned0, err0, raw, dark⟩ o).loading =
      (handleSubmitFinal2 ⟨url, loading0, cloned0, err0⟩ o).loading := by
  refine ⟨rfl, ?_, ?_, rfl⟩
  · rw [handleSubmitFinal_clonedHtml, handleSubmitFinal2_clonedHtml]
  · rw [handleSubmitFinal_error, handleSubmitFinal2_error]
